import Mathlib

/-!
Shallow embedding of the PsyFi wallet-authentication subsystem: the auth router
(connect / refresh / disconnect / nonce endpoints), the session rows and user
rows of `DatabaseService`, and the TTL cache of `RedisService`. Machine time is
an integer millisecond clock (`Date.now()`); JWTs are modelled as records whose
signature validity is sameness of the signing secret; the external
`ethers.verifyMessage` is an oracle parameter, with `none` standing for the
throw on an unparseable signature.
-/

namespace PsyFi

/-- Five minutes in milliseconds, the freshness window of `connect`. -/
def fiveMinutesMs : Int := 5 * 60 * 1000

/-- Access-token lifetime: `expiresIn: "1h"`, in milliseconds. -/
def accessTokenLifetimeMs : Int := 60 * 60 * 1000

/-- Refresh-token lifetime: `expiresIn: "7d"`, in milliseconds. -/
def refreshTokenLifetimeMs : Int := 7 * 24 * 60 * 60 * 1000

/-- Session cache TTL passed to `cacheUserSession` (7 days in seconds). -/
def sessionTtlSeconds : Int := 7 * 24 * 60 * 60

/-- Case-insensitive address canonicalisation: `s.toLowerCase()`. -/
def toLowerCase (s : String) : String :=
  String.mk (s.toList.map Char.toLower)

/-- A row of the `users` table. The upsert touches `username`, `email` and
`updated_at` only; `preferences` is untouched by it and omitted here. -/
structure User where
  id : Nat
  wallet_address : String
  username : Option String
  email : Option String
  created_at : Int
  updated_at : Int
deriving DecidableEq, Repr

/-- `DatabaseService.createUser`: `INSERT ... ON CONFLICT (wallet_address) DO
UPDATE SET username = COALESCE($2, users.username), email = COALESCE($3,
users.email), updated_at = CURRENT_TIMESTAMP RETURNING *`. Returns the row, the
new table, and the next serial id. -/
def createUser (tbl : List User) (nextId : Nat) (walletAddress : String)
    (username email : Option String) (now : Int) : User × List User × Nat :=
  match tbl.find? (fun u => u.wallet_address == walletAddress) with
  | some u =>
      let u' : User :=
        { u with
          username := username <|> u.username
          email := email <|> u.email
          updated_at := now }
      (u', tbl.map (fun v => if v.wallet_address == walletAddress then u' else v), nextId)
  | none =>
      let u : User := ⟨nextId, walletAddress, username, email, now, now⟩
      (u, tbl ++ [u], nextId + 1)

/-- `DatabaseService.getUserByWallet`: `SELECT * FROM users WHERE
wallet_address = $1`. -/
def getUserByWallet (tbl : List User) (walletAddress : String) : Option User :=
  tbl.find? (fun u => u.wallet_address == walletAddress)

/-- A row of the `api_sessions` table. -/
structure SessionRow where
  session_id : String
  user_id : Nat
  wallet_address : String
  expires_at : Int
deriving DecidableEq, Repr

/-- `DatabaseService.createSession`: `INSERT INTO api_sessions (...)`. -/
def createSessionRow (tbl : List SessionRow) (sessionId : String) (userId : Nat)
    (walletAddress : String) (expiresAt : Int) : List SessionRow :=
  tbl ++ [⟨sessionId, userId, walletAddress, expiresAt⟩]

/-- `DatabaseService.deleteSession`: `DELETE FROM api_sessions WHERE
session_id = $1` (no error when the row is absent). -/
def deleteSessionRow (tbl : List SessionRow) (sessionId : String) : List SessionRow :=
  tbl.filter (fun r => r.session_id != sessionId)

/-- The projection returned by `DatabaseService.getSession` (`s.*` joined with
`u.wallet_address, u.username`). -/
structure SessionView where
  row : SessionRow
  wallet_address : String
  username : Option String
deriving DecidableEq, Repr

/-- `DatabaseService.getSession`: `SELECT s.*, u.wallet_address, u.username
FROM api_sessions s JOIN users u ON s.user_id = u.id WHERE s.session_id = $1
AND s.expires_at > CURRENT_TIMESTAMP`. -/
def getSession (sessions : List SessionRow) (users : List User)
    (sessionId : String) (now : Int) : Option SessionView :=
  match sessions.find? (fun r => r.session_id == sessionId && decide (now < r.expires_at)) with
  | none => none
  | some r =>
      match users.find? (fun u => u.id == r.user_id) with
      | none => none
      | some u => some ⟨r, u.wallet_address, u.username⟩

/-- The JSON payload `connect` caches for a session:
`{userId, walletAddress, username}`. -/
structure SessionPayload where
  userId : Nat
  walletAddress : String
  username : Option String
deriving DecidableEq, Repr

/-- A Redis value: either a plain string (the nonce entries) or the
JSON-serialised session payload (`setJSON`). -/
inductive CacheVal where
  | raw (s : String)
  | sess (p : SessionPayload)
deriving DecidableEq, Repr

/-- A cached entry together with its eviction deadline in milliseconds
(`SETEX key ttl value` written at time `t` evicts at `t + ttl * 1000`;
Redis checks the deadline lazily on every read). -/
structure CacheEntry where
  val : CacheVal
  deadline : Int
deriving DecidableEq, Repr

/-- The cache state: a partial map from Redis keys to entries. -/
abbrev Cache := String → Option CacheEntry

/-- The empty cache. -/
def Cache.empty : Cache := fun _ => none

/-- `RedisService.set` with a TTL (`setEx`): overwrite the key. -/
def redisSet (c : Cache) (key : String) (v : CacheVal) (deadline : Int) : Cache :=
  fun k => if k = key then some ⟨v, deadline⟩ else c k

/-- A Redis read at time `now`: an entry past its deadline is gone
(lazy expiry semantics of `GET`). -/
def redisGet (c : Cache) (key : String) (now : Int) : Option CacheVal :=
  match c key with
  | some e => if now < e.deadline then some e.val else none
  | none => none

/-- `RedisService.del`. -/
def redisDel (c : Cache) (key : String) : Cache :=
  fun k => if k = key then none else c k

/-- `RedisService.cacheUserSession`: `setJSON` under key `session:` ++ id with
the given TTL in seconds. -/
def cacheUserSession (c : Cache) (sessionId : String) (p : SessionPayload)
    (now ttlSeconds : Int) : Cache :=
  redisSet c ("session:" ++ sessionId) (.sess p) (now + ttlSeconds * 1000)

/-- `RedisService.getCachedUserSession`: `getJSON` under key `session:` ++ id;
a value that does not parse as a session payload yields `null`. -/
def getCachedUserSession (c : Cache) (sessionId : String) (now : Int) :
    Option SessionPayload :=
  match redisGet c ("session:" ++ sessionId) now with
  | some (.sess p) => some p
  | _ => none

/-- `RedisService.invalidateUserSession`: `del` of `session:` ++ id. -/
def invalidateUserSession (c : Cache) (sessionId : String) : Cache :=
  redisDel c ("session:" ++ sessionId)

/-- The claims set carried by the JWTs the router mints. Access tokens carry
`{userId, walletAddress, username}`; refresh tokens omit `username`. -/
structure JwtClaims where
  userId : Nat
  walletAddress : String
  username : Option String
deriving DecidableEq, Repr

/-- A signed JWT: claims, issue and expiry instants, and the signing secret.
Signature validity is modelled as sameness of the secret (an idealised,
collision-free HMAC). -/
structure Jwt where
  claims : JwtClaims
  iat : Int
  exp : Int
  secret : String
deriving DecidableEq, Repr

/-- `jwt.sign(payload, secret, expiresIn)`. -/
def jwtSign (claims : JwtClaims) (secret : String) (now lifetimeMs : Int) : Jwt :=
  ⟨claims, now, now + lifetimeMs, secret⟩

/-- Outcome of `jwt.verify`: `expired` models `TokenExpiredError` and
`invalid` every other `JsonWebTokenError`. -/
inductive JwtVerifyResult where
  | ok (claims : JwtClaims)
  | expired
  | invalid
deriving DecidableEq, Repr

/-- `jwt.verify(token, secret)`: rejects a wrong secret, then a past expiry,
then returns the decoded claims. -/
def jwtVerify (t : Jwt) (secret : String) (now : Int) : JwtVerifyResult :=
  if t.secret != secret then .invalid
  else if t.exp ≤ now then .expired
  else .ok t.claims

/-- The access-token mint inside `connect` and `refresh`:
`jwt.sign({userId, walletAddress, username}, secret, 1h)`. -/
def mintAccessToken (u : User) (secret : String) (now : Int) : Jwt :=
  jwtSign ⟨u.id, u.wallet_address, u.username⟩ secret now accessTokenLifetimeMs

/-- The refresh-token mint inside `connect`:
`jwt.sign({userId, walletAddress}, secret, 7d)` — same secret, no kind claim. -/
def mintRefreshToken (u : User) (secret : String) (now : Int) : Jwt :=
  jwtSign ⟨u.id, u.wallet_address, none⟩ secret now refreshTokenLifetimeMs

/-- Leading decimal-digit run of a character list. -/
def takeDigits : List Char → List Char
  | [] => []
  | c :: rest => if c.isDigit then c :: takeDigits rest else []

/-- Value of a decimal digit character. -/
def digitVal (c : Char) : Nat := c.toNat - 48

/-- Match a character-list prefix, returning the remainder on success. -/
def stripPrefixChars : List Char → List Char → Option (List Char)
  | [], rest => some rest
  | _ :: _, [] => none
  | p :: ps, c :: cs => if c = p then stripPrefixChars ps cs else none

/-- The literal searched for by the regex `/Timestamp: (\d+)/`. -/
def timestampPattern : List Char := "Timestamp: ".toList

/-- Try the regex `/Timestamp: (\d+)/` at one start position: the literal
prefix followed by at least one digit, capturing the maximal digit run. -/
def matchTimestampAt (cs : List Char) : Option Nat :=
  match stripPrefixChars timestampPattern cs with
  | none => none
  | some rest =>
      match takeDigits rest with
      | [] => none
      | ds => some (ds.foldl (fun a c => a * 10 + digitVal c) 0)

/-- Left-to-right scan of the regex `/Timestamp: (\d+)/`: first match wins. -/
def findTimestamp : List Char → Option Nat
  | [] => none
  | c :: rest =>
      match matchTimestampAt (c :: rest) with
      | some n => some n
      | none => findTimestamp rest

/-- `extractTimestampFromMessage`: the captured number of the first
`Timestamp: (\d+)` match, and 0 when there is no match. -/
def extractTimestampFromMessage (message : String) : Int :=
  match findTimestamp message.toList with
  | some n => (n : Int)
  | none => 0

/-- The freshness test of `connect` (lines 46-49):
`now - messageTimestamp > fiveMinutes` means rejection. -/
def messageExpiredCheck (now messageTimestamp : Int) : Bool :=
  now - messageTimestamp > fiveMinutesMs

/-- The body of a (schema-valid) `POST /connect` request. -/
structure ConnectRequest where
  walletAddress : String
  signature : String
  message : String
  username : Option String
  email : Option String
deriving DecidableEq, Repr

/-- The success payload of `connect`. -/
structure ConnectSuccess where
  user : User
  accessToken : Jwt
  refreshToken : Jwt
  sessionId : String
deriving DecidableEq, Repr

/-- Outcome of `POST /connect`: 200, 401 INVALID_SIGNATURE, 401
MESSAGE_EXPIRED, or the generic 500 INTERNAL_ERROR of the catch block. -/
inductive ConnectResult where
  | success (s : ConnectSuccess)
  | invalidSignature
  | messageExpired
  | internalError
deriving DecidableEq, Repr

/-- Whether a connect outcome is the 200 success. -/
def ConnectResult.isSuccess : ConnectResult → Bool
  | .success _ => true
  | _ => false

/-- The mutable backend state the auth router touches. -/
structure ServerState where
  users : List User
  nextUserId : Nat
  sessions : List SessionRow
  cache : Cache

/-- `router.post("/connect")`. `recover` is the `ethers.verifyMessage` oracle
(`none` = the throw on an unparseable signature, which the catch block turns
into INTERNAL_ERROR). `sessionId` stands for the `generateSessionId()` draw.
`dbSessionFail` models `db.createSession` throwing (caught as INTERNAL_ERROR,
after the user upsert already committed); `cacheSetFail` models the Redis error
that `RedisService.set` swallows, returning `false` — the handler ignores that
return value and responds with success either way. -/
def connect (recover : String → String → Option String) (secret : String)
    (req : ConnectRequest) (now : Int) (sessionId : String)
    (dbSessionFail cacheSetFail : Bool) (st : ServerState) :
    ConnectResult × ServerState :=
  match recover req.message req.signature with
  | none => (.internalError, st)
  | some recoveredAddress =>
    if toLowerCase recoveredAddress != toLowerCase req.walletAddress then
      (.invalidSignature, st)
    else if messageExpiredCheck now (extractTimestampFromMessage req.message) then
      (.messageExpired, st)
    else
      let cu := createUser st.users st.nextUserId req.walletAddress req.username req.email now
      let user := cu.1
      let users' := cu.2.1
      let nextId' := cu.2.2
      let accessToken := mintAccessToken user secret now
      let refreshToken := mintRefreshToken user secret now
      let expiresAt := now + refreshTokenLifetimeMs
      if dbSessionFail then
        (.internalError, { st with users := users', nextUserId := nextId' })
      else
        let sessions' := createSessionRow st.sessions sessionId user.id user.wallet_address expiresAt
        let cache' :=
          if cacheSetFail then st.cache
          else cacheUserSession st.cache sessionId
            ⟨user.id, user.wallet_address, user.username⟩ now sessionTtlSeconds
        (.success ⟨user, accessToken, refreshToken, sessionId⟩,
          ⟨users', nextId', sessions', cache'⟩)

/-- Outcome of `POST /refresh`: 200 with a fresh access token, 401
INVALID_REFRESH_TOKEN (any `JsonWebTokenError`, expiry included), or 401
USER_NOT_FOUND. -/
inductive RefreshResult where
  | success (accessToken : Jwt)
  | invalidRefreshToken
  | userNotFound
deriving DecidableEq, Repr

/-- `router.post("/refresh")`: `jwt.verify` the presented token (both
`TokenExpiredError` and other `JsonWebTokenError`s land in the same catch arm,
INVALID_REFRESH_TOKEN), look the user up by the decoded wallet address, and
mint a new access token. -/
def refresh (secret : String) (refreshToken : Jwt) (now : Int)
    (users : List User) : RefreshResult :=
  match jwtVerify refreshToken secret now with
  | .invalid => .invalidRefreshToken
  | .expired => .invalidRefreshToken
  | .ok decoded =>
      match getUserByWallet users decoded.walletAddress with
      | none => .userNotFound
      | some user => .success (mintAccessToken user secret now)

/-- Outcome of `POST /disconnect`: the handler always responds with success
(deleting an absent session is not an error in either store). -/
inductive DisconnectResult where
  | success
deriving DecidableEq, Repr

/-- `router.post("/disconnect")`: when an `x-session-id` header is present,
delete the row and the cache entry; respond with success regardless. -/
def disconnect (sessionId : Option String) (st : ServerState) :
    DisconnectResult × ServerState :=
  match sessionId with
  | some sid =>
      (.success,
        { st with
          sessions := deleteSessionRow st.sessions sid
          cache := invalidateUserSession st.cache sid })
  | none => (.success, st)

/-- One base-36 digit character as printed by JS `Number.prototype.toString`:
`0`-`9` then `a`-`z`. -/
def base36DigitChar (d : Nat) : Char :=
  if d < 10 then Char.ofNat (48 + d) else Char.ofNat (87 + d)

/-- Exactly `k` base-36 digits of `n`, least significant first. -/
def fracDigitsLE : Nat → Nat → List Nat
  | 0, _ => []
  | k + 1, n => n % 36 :: fracDigitsLE k (n / 36)

/-- Fractional base-36 digits of the dyadic rational `num / 2 ^ k`, most
significant first, trailing zeros trimmed — the digits `toString(36)` prints
after `0.` (the expansion is exact: `num / 2 ^ k = num * 18 ^ k / 36 ^ k`). -/
def jsFrac36Digits (num k : Nat) : List Nat :=
  ((fracDigitsLE k (num * 18 ^ k)).dropWhile (· == 0)).reverse

/-- The character list of `(num / 2 ^ k).toString(36)`: `0` alone for zero,
else `0.` followed by the trimmed fractional digits. -/
def jsToString36Chars (num k : Nat) : List Char :=
  if num == 0 then ['0']
  else '0' :: '.' :: (jsFrac36Digits num k).map base36DigitChar

/-- `generateNonce`: `Math.random().toString(36).substr(2, 15)`, the random
double modelled as the dyadic rational `num / 2 ^ k` in `[0, 1)`. -/
def generateNonce (num k : Nat) : String :=
  String.mk (((jsToString36Chars num k).drop 2).take 15)

/-- Hex-digit test of the address pattern `[a-fA-F0-9]`. -/
def isHexChar (c : Char) : Bool :=
  (decide ('0' ≤ c) && decide (c ≤ '9')) ||
  (decide ('a' ≤ c) && decide (c ≤ 'f')) ||
  (decide ('A' ≤ c) && decide (c ≤ 'F'))

/-- The address check `/^0x[a-fA-F0-9]{40}$/`. -/
def validWalletAddress (s : String) : Bool :=
  match s.toList with
  | '0' :: 'x' :: rest => rest.length == 40 && rest.all isHexChar
  | _ => false

/-- The challenge message returned by `GET /nonce/:walletAddress`. -/
def buildChallengeMessage (walletAddress nonce : String) (timestamp : Int) : String :=
  "Sign this message to connect to PsyFi:\n\nWallet: " ++ walletAddress ++
    "\nNonce: " ++ nonce ++ "\nTimestamp: " ++ toString timestamp

/-- The success payload of the nonce endpoint. -/
structure NonceSuccess where
  message : String
  nonce : String
  timestamp : Int
deriving DecidableEq, Repr

/-- Outcome of `GET /nonce/:walletAddress`. -/
inductive NonceResult where
  | success (s : NonceSuccess)
  | invalidWalletAddress
deriving DecidableEq, Repr

/-- `router.get("/nonce/:walletAddress")`: validate the address shape, draw a
nonce (`num / 2 ^ k` models the `Math.random()` draw), compose the message and
cache the nonce under `nonce:` ++ address for 300 seconds. -/
def issueChallenge (walletAddress : String) (num k : Nat) (now : Int)
    (c : Cache) : NonceResult × Cache :=
  if !validWalletAddress walletAddress then (.invalidWalletAddress, c)
  else
    let nonce := generateNonce num k
    let message := buildChallengeMessage walletAddress nonce now
    (.success ⟨message, nonce, now⟩,
      redisSet c ("nonce:" ++ walletAddress) (.raw nonce) (now + 300 * 1000))

/-- The payload view of a durable session hit. -/
def sessionViewPayload (v : SessionView) : SessionPayload :=
  ⟨v.row.user_id, v.wallet_address, v.username⟩

/-- Modelled from the spec: the Session Store `lookup` composition (spec §4.4)
lives in `middleware/auth.ts`, which is not among the provided sources; per the
spec it "checks cache first; on cache miss, falls back to durable store". Both
legs — `getCachedUserSession` and `getSession` — are embedded from the source.
(The cache repopulation on a durable hit does not affect the returned value
and is omitted.) -/
def lookupSession (sessions : List SessionRow) (users : List User) (c : Cache)
    (sessionId : String) (now : Int) : Option SessionPayload :=
  match getCachedUserSession c sessionId now with
  | some p => some p
  | none => (getSession sessions users sessionId now).map sessionViewPayload

/-- Claim C1, counterexample: an unexpired access token minted by `connect` is
accepted by `refresh`, which issues a new access token — the claim that
`refresh` with an access token (wrong kind) fails with `TokenInvalid` and
never issues a new access token is false on the code, since access and refresh
tokens share the secret and carry no kind claim. -/
theorem refresh_accepts_access_token_counterexample :
    refresh "secret" (mintAccessToken ⟨1, "0xabc", some "alice", none, 0, 0⟩ "secret" 0) 1000
        [⟨1, "0xabc", some "alice", none, 0, 0⟩] =
      .success (mintAccessToken ⟨1, "0xabc", some "alice", none, 0, 0⟩ "secret" 1000)
    ∧ refresh "secret" (mintAccessToken ⟨1, "0xabc", some "alice", none, 0, 0⟩ "secret" 0) 1000
        [⟨1, "0xabc", some "alice", none, 0, 0⟩] ≠ .invalidRefreshToken := by
  decide

/-- Claim C1, amended: `refresh` with an expired token, or a token signed with
a different secret, fails with the single 401 code INVALID_REFRESH_TOKEN and
never issues a new access token; access tokens are structurally
indistinguishable from refresh tokens, so this says nothing about them. -/
theorem refresh_rejects_expired_or_badly_signed
    (secret : String) (t : Jwt) (now : Int) (users : List User)
    (h : t.exp ≤ now ∨ t.secret ≠ secret) :
    refresh secret t now users = .invalidRefreshToken := by
  rcases h with h | h
  · by_cases hs : t.secret = secret
    · simp [refresh, jwtVerify, hs, h]
    · simp [refresh, jwtVerify, hs]
  · simp [refresh, jwtVerify, h]

/-- Witness for C1's amended theorem: a concrete refresh token that expired at
its own lifetime bound is rejected. -/
theorem refresh_rejects_expired_or_badly_signed_witness :
    refresh "secret" (jwtSign ⟨1, "0xabc", none⟩ "secret" 0 604800000) 604800000 []
      = .invalidRefreshToken :=
  refresh_rejects_expired_or_badly_signed "secret"
    (jwtSign ⟨1, "0xabc", none⟩ "secret" 0 604800000) 604800000 [] (Or.inl (by decide))

/-- Claim C3, counterexample: a submission whose signature cannot be
parsed/recovered (the `ethers.verifyMessage` oracle throws, modelled by
`none`) lands in the generic catch block and yields the generic 500
INTERNAL_ERROR — not a distinct `MalformedSignature` kind, which the code's
outcome set does not even contain. -/
theorem connect_malformed_sig_counterexample :
    (connect (fun _ _ => none) "secret"
        ⟨"0xbeef", "not-a-signature", "Timestamp: 0", none, none⟩ 0 "sess1" false false
        ⟨[], 1, [], Cache.empty⟩).1 = .internalError := by
  decide

/-- Claim C3, amended: for every connect submission whose signature cannot be
parsed or recovered, the handler's catch block yields the generic internal
error (500 INTERNAL_ERROR); there is no distinct MalformedSignature kind, and
the submission is never reported as the mismatched-signature kind
InvalidSignature. -/
theorem connect_malformed_sig_internal_error
    (recover : String → String → Option String) (secret : String)
    (req : ConnectRequest) (now : Int) (sessionId : String)
    (dbSessionFail cacheSetFail : Bool) (st : ServerState)
    (h : recover req.message req.signature = none) :
    (connect recover secret req now sessionId dbSessionFail cacheSetFail st).1 = .internalError
    ∧ (connect recover secret req now sessionId dbSessionFail cacheSetFail st).1
        ≠ .invalidSignature := by
  simp [connect, h]

/-- Witness for C3's amended theorem at a concrete submission. -/
theorem connect_malformed_sig_internal_error_witness :
    (connect (fun _ _ => none) "secret"
        ⟨"0xbeef", "bad", "Timestamp: 0", none, none⟩ 0 "s1" false false
        ⟨[], 1, [], Cache.empty⟩).1 = .internalError
    ∧ (connect (fun _ _ => none) "secret"
        ⟨"0xbeef", "bad", "Timestamp: 0", none, none⟩ 0 "s1" false false
        ⟨[], 1, [], Cache.empty⟩).1 ≠ .invalidSignature :=
  connect_malformed_sig_internal_error (fun _ _ => none) "secret"
    ⟨"0xbeef", "bad", "Timestamp: 0", none, none⟩ 0 "s1" false false
    ⟨[], 1, [], Cache.empty⟩ rfl

/-- Claim C4, counterexample: a submission whose embedded timestamp is far
older than 5 minutes and whose signature also fails to verify yields
InvalidSignature, not ChallengeExpired — the code verifies the signature
before validating freshness, contrary to the claim. -/
theorem connect_stale_bad_sig_counterexample :
    messageExpiredCheck 1000000 (extractTimestampFromMessage "Timestamp: 0") = true
    ∧ (connect (fun _ _ => some "0xdead") "secret"
        ⟨"0xbeef", "sig", "Timestamp: 0", none, none⟩ 1000000 "sess1" false false
        ⟨[], 1, [], Cache.empty⟩).1 = .invalidSignature
    ∧ (connect (fun _ _ => some "0xdead") "secret"
        ⟨"0xbeef", "sig", "Timestamp: 0", none, none⟩ 1000000 "sess1" false false
        ⟨[], 1, [], Cache.empty⟩).1 ≠ .messageExpired := by
  decide

/-- Claim C4, amended: in connect the signature is verified before freshness is
validated — when the signature recovers, the result is ChallengeExpired
(MESSAGE_EXPIRED) exactly when the recovered address matches the claimed one
and the embedded timestamp is older than 5 minutes; a stale submission whose
signature fails to verify yields InvalidSignature instead. -/
theorem connect_signature_before_freshness
    (recover : String → String → Option String) (secret : String)
    (req : ConnectRequest) (now : Int) (sessionId : String)
    (dbSessionFail cacheSetFail : Bool) (st : ServerState) (recovered : String)
    (hrec : recover req.message req.signature = some recovered) :
    (connect recover secret req now sessionId dbSessionFail cacheSetFail st).1 = .messageExpired
      ↔ (toLowerCase recovered = toLowerCase req.walletAddress
          ∧ messageExpiredCheck now (extractTimestampFromMessage req.message) = true) := by
  by_cases haddr : toLowerCase recovered = toLowerCase req.walletAddress
  · by_cases hts : messageExpiredCheck now (extractTimestampFromMessage req.message) = true
    · simp [connect, hrec, haddr, hts]
    · cases dbSessionFail <;> simp [connect, hrec, haddr, hts]
  · simp [connect, hrec, haddr]

/-- Witness for C4's amended theorem: a stale submission whose signature
verifies is reported expired. -/
theorem connect_signature_before_freshness_witness :
    ((connect (fun _ _ => some "0xab") "secret"
        ⟨"0xAB", "sig", "Timestamp: 0", none, none⟩ 1000000 "s1" false false
        ⟨[], 1, [], Cache.empty⟩).1 = .messageExpired
      ↔ (toLowerCase "0xab" = toLowerCase "0xAB"
          ∧ messageExpiredCheck 1000000
              (extractTimestampFromMessage "Timestamp: 0") = true)) :=
  connect_signature_before_freshness (fun _ _ => some "0xab") "secret"
    ⟨"0xAB", "sig", "Timestamp: 0", none, none⟩ 1000000 "s1" false false
    ⟨[], 1, [], Cache.empty⟩ "0xab" rfl

/-- Claim C2: the outcome of connect does not depend on the `nonce:` cache
entry written by the challenge issuer — for any two cache states that agree
everywhere except possibly at `nonce:` ++ address, connect returns the same
result; in particular, with an entirely empty cache (no challenge ever
issued), a submission with a fresh embedded timestamp and a matching
signature still succeeds. -/
theorem connect_nonce_cache_independent
    (recover : String → String → Option String) (secret : String)
    (req : ConnectRequest) (now : Int) (sessionId : String)
    (dbSessionFail cacheSetFail : Bool)
    (users : List User) (nextUserId : Nat) (sessions : List SessionRow)
    (c₁ c₂ : Cache) (recovered : String)
    (_hagree : ∀ kk, kk ≠ "nonce:" ++ req.walletAddress → c₁ kk = c₂ kk) :
    (connect recover secret req now sessionId dbSessionFail cacheSetFail
        ⟨users, nextUserId, sessions, c₁⟩).1 =
      (connect recover secret req now sessionId dbSessionFail cacheSetFail
        ⟨users, nextUserId, sessions, c₂⟩).1
    ∧ (recover req.message req.signature = some recovered →
        toLowerCase recovered = toLowerCase req.walletAddress →
        messageExpiredCheck now (extractTimestampFromMessage req.message) = false →
        dbSessionFail = false →
        (connect recover secret req now sessionId dbSessionFail cacheSetFail
          ⟨users, nextUserId, sessions, Cache.empty⟩).1.isSuccess = true) := by
  constructor
  · cases hrec : recover req.message req.signature with
    | none => simp [connect, hrec]
    | some r =>
        cases hb : (toLowerCase r != toLowerCase req.walletAddress) with
        | true => simp [connect, hrec, hb]
        | false =>
            cases hts : messageExpiredCheck now (extractTimestampFromMessage req.message) with
            | true => simp [connect, hrec, hb, hts]
            | false => cases dbSessionFail <;> simp [connect, hrec, hb, hts]
  · intro hrec haddr hfresh hdb
    subst hdb
    simp [connect, hrec, haddr, hfresh, ConnectResult.isSuccess]

/-- Witness for C2 at a concrete submission with an empty cache: success with
no challenge ever issued. -/
theorem connect_nonce_cache_independent_witness :
    (connect (fun _ _ => some "0xab") "secret"
        ⟨"0xAB", "sig", "Timestamp: 1000", none, none⟩ 1000 "s1" false false
        ⟨[], 1, [], Cache.empty⟩).1.isSuccess = true :=
  (connect_nonce_cache_independent (fun _ _ => some "0xab") "secret"
      ⟨"0xAB", "sig", "Timestamp: 1000", none, none⟩ 1000 "s1" false false
      [] 1 [] Cache.empty Cache.empty "0xab" (fun _ _ => rfl)).2
    rfl (by decide) (by decide) rfl

/-- Claim C6: session creation orders the durable write before the cache
write — under a submission that reaches session creation, connect succeeds
exactly when the durable `createSession` write succeeds (a cache-write failure
is swallowed and does not fail the call), and a fresh session's cache entry
exists in the final state only if its durable row does. -/
theorem session_create_durable_first
    (recover : String → String → Option String) (secret : String)
    (req : ConnectRequest) (now : Int) (sessionId : String)
    (dbSessionFail cacheSetFail : Bool) (st : ServerState) (recovered : String)
    (hrec : recover req.message req.signature = some recovered)
    (haddr : toLowerCase recovered = toLowerCase req.walletAddress)
    (hfresh : messageExpiredCheck now (extractTimestampFromMessage req.message) = false)
    (hnocache : st.cache ("session:" ++ sessionId) = none) :
    ((connect recover secret req now sessionId dbSessionFail cacheSetFail st).1.isSuccess = true
        ↔ dbSessionFail = false)
    ∧ (∀ e, ((connect recover secret req now sessionId dbSessionFail cacheSetFail st).2).cache
          ("session:" ++ sessionId) = some e →
        ∃ r, r ∈ ((connect recover secret req now sessionId dbSessionFail cacheSetFail st).2).sessions
          ∧ r.session_id = sessionId) := by
  cases dbSessionFail with
  | true =>
      refine ⟨by simp [connect, hrec, haddr, hfresh, ConnectResult.isSuccess], ?_⟩
      intro e he
      simp [connect, hrec, haddr, hfresh] at he
      rw [hnocache] at he
      exact absurd he (by simp)
  | false =>
      refine ⟨by cases cacheSetFail <;>
        simp [connect, hrec, haddr, hfresh, ConnectResult.isSuccess], ?_⟩
      intro e he
      refine ⟨⟨sessionId,
        (createUser st.users st.nextUserId req.walletAddress req.username req.email now).1.id,
        (createUser st.users st.nextUserId req.walletAddress req.username req.email now).1.wallet_address,
        now + refreshTokenLifetimeMs⟩, ?_, rfl⟩
      simp [connect, hrec, haddr, hfresh, createSessionRow]

/-- Witness for C6 at a concrete submission: the success-iff-durable-write
equivalence, and the fresh cache entry's durable row. -/
theorem session_create_durable_first_witness :
    ((connect (fun _ _ => some "0xab") "secret"
        ⟨"0xAB", "sig", "Timestamp: 1000", none, none⟩ 1000 "s1" false false
        ⟨[], 1, [], Cache.empty⟩).1.isSuccess = true ↔ false = false)
    ∧ (∃ r, r ∈ ((connect (fun _ _ => some "0xab") "secret"
          ⟨"0xAB", "sig", "Timestamp: 1000", none, none⟩ 1000 "s1" false false
          ⟨[], 1, [], Cache.empty⟩).2).sessions ∧ r.session_id = "s1") :=
  ⟨(session_create_durable_first (fun _ _ => some "0xab") "secret"
      ⟨"0xAB", "sig", "Timestamp: 1000", none, none⟩ 1000 "s1" false false
      ⟨[], 1, [], Cache.empty⟩ "0xab" rfl (by decide) (by decide) rfl).1,
    (session_create_durable_first (fun _ _ => some "0xab") "secret"
      ⟨"0xAB", "sig", "Timestamp: 1000", none, none⟩ 1000 "s1" false false
      ⟨[], 1, [], Cache.empty⟩ "0xab" rfl (by decide) (by decide) rfl).2
      ⟨.sess ⟨1, "0xAB", none⟩, 1000 + 604800 * 1000⟩ rfl⟩

/-- Claim C7: disconnect is idempotent — it succeeds for every session
identifier (present or not), a second disconnect also succeeds and leaves the
state unchanged, and after a disconnect neither the session table nor the
cache holds the session. -/
theorem disconnect_idempotent (st : ServerState) (sid : String) :
    (disconnect (some sid) st).1 = .success
    ∧ (disconnect (some sid) (disconnect (some sid) st).2).1 = .success
    ∧ (∀ r ∈ ((disconnect (some sid) st).2).sessions, r.session_id ≠ sid)
    ∧ ((disconnect (some sid) st).2).cache ("session:" ++ sid) = none
    ∧ (disconnect (some sid) (disconnect (some sid) st).2).2 = (disconnect (some sid) st).2 := by
  refine ⟨rfl, rfl, ?_, ?_, ?_⟩
  · intro r hr
    simp only [disconnect, deleteSessionRow, List.mem_filter, bne_iff_ne, ne_eq] at hr
    exact hr.2
  · simp [disconnect, invalidateUserSession, redisDel]
  · simp only [disconnect, ServerState.mk.injEq]
    refine ⟨trivial, trivial, ?_, ?_⟩
    · simp only [deleteSessionRow, List.filter_filter]
      exact List.filter_congr (fun a _ => by simp)
    · funext k
      by_cases hk : k = "session:" ++ sid <;>
        simp [invalidateUserSession, redisDel, hk]

/-- Witness for C7 at a concrete state holding an unrelated session and the
target session. -/
theorem disconnect_idempotent_witness :
    (disconnect (some "s1") ⟨[], 1, [⟨"keep", 1, "0xab", 5⟩, ⟨"s1", 1, "0xab", 5⟩],
        Cache.empty⟩).1 = .success
    ∧ ((disconnect (some "s1") ⟨[], 1, [⟨"keep", 1, "0xab", 5⟩, ⟨"s1", 1, "0xab", 5⟩],
        Cache.empty⟩).2).cache ("session:" ++ "s1") = none
    ∧ ("keep" : String) ≠ "s1" :=
  ⟨(disconnect_idempotent ⟨[], 1, [⟨"keep", 1, "0xab", 5⟩, ⟨"s1", 1, "0xab", 5⟩],
      Cache.empty⟩ "s1").1,
    (disconnect_idempotent ⟨[], 1, [⟨"keep", 1, "0xab", 5⟩, ⟨"s1", 1, "0xab", 5⟩],
      Cache.empty⟩ "s1").2.2.2.1,
    (disconnect_idempotent ⟨[], 1, [⟨"keep", 1, "0xab", 5⟩, ⟨"s1", 1, "0xab", 5⟩],
      Cache.empty⟩ "s1").2.2.1 ⟨"keep", 1, "0xab", 5⟩ (by decide)⟩

/-- Claim C8: the identity upsert — for an address already in the table, only
the explicitly provided fields change (coalesce-on-null: an omitted field
keeps its previous value), the last-updated timestamp is refreshed, and the
immutable fields (id, address, created_at) are untouched; for an unseen
address a new row is inserted. -/
theorem createUser_upsert_coalesce
    (tbl : List User) (nextId : Nat) (walletAddress : String)
    (username email : Option String) (now : Int) :
    (∀ u, tbl.find? (fun v => v.wallet_address == walletAddress) = some u →
      (createUser tbl nextId walletAddress username email now).1 =
          { u with
            username := username <|> u.username
            email := email <|> u.email
            updated_at := now }
        ∧ (username = none →
            (createUser tbl nextId walletAddress username email now).1.username = u.username)
        ∧ (email = none →
            (createUser tbl nextId walletAddress username email now).1.email = u.email)
        ∧ (createUser tbl nextId walletAddress username email now).1.updated_at = now
        ∧ (createUser tbl nextId walletAddress username email now).1.id = u.id
        ∧ (createUser tbl nextId walletAddress username email now).1.created_at = u.created_at
        ∧ (createUser tbl nextId walletAddress username email now).1.wallet_address
            = u.wallet_address)
    ∧ (tbl.find? (fun v => v.wallet_address == walletAddress) = none →
      (createUser tbl nextId walletAddress username email now).1 =
          ⟨nextId, walletAddress, username, email, now, now⟩
        ∧ (createUser tbl nextId walletAddress username email now).2.1 =
            tbl ++ [⟨nextId, walletAddress, username, email, now, now⟩]) := by
  constructor
  · intro u h
    refine ⟨by simp [createUser, h], ?_, ?_, ?_, ?_, ?_, ?_⟩ <;>
      simp [createUser, h]
    · intro h'
      subst h'
      rfl
    · intro h'
      subst h'
      rfl
  · intro h
    exact ⟨by simp [createUser, h], by simp [createUser, h]⟩

/-- Witness for C8: a seen address keeps its omitted email and gains the
provided username; an unseen address is inserted. -/
theorem createUser_upsert_coalesce_witness :
    ((createUser [⟨1, "0xaa", some "old", some "e@x", 0, 0⟩] 2 "0xaa" (some "new") none 5).1 =
        { (⟨1, "0xaa", some "old", some "e@x", 0, 0⟩ : User) with
          username := some "new" <|> some "old"
          email := none <|> some "e@x"
          updated_at := 5 }
      ∧ (some "new" = none →
          (createUser [⟨1, "0xaa", some "old", some "e@x", 0, 0⟩] 2 "0xaa"
            (some "new") none 5).1.username = some "old")
      ∧ ((none : Option String) = none →
          (createUser [⟨1, "0xaa", some "old", some "e@x", 0, 0⟩] 2 "0xaa"
            (some "new") none 5).1.email = some "e@x")
      ∧ (createUser [⟨1, "0xaa", some "old", some "e@x", 0, 0⟩] 2 "0xaa"
          (some "new") none 5).1.updated_at = 5
      ∧ (createUser [⟨1, "0xaa", some "old", some "e@x", 0, 0⟩] 2 "0xaa"
          (some "new") none 5).1.id = 1
      ∧ (createUser [⟨1, "0xaa", some "old", some "e@x", 0, 0⟩] 2 "0xaa"
          (some "new") none 5).1.created_at = 0
      ∧ (createUser [⟨1, "0xaa", some "old", some "e@x", 0, 0⟩] 2 "0xaa"
          (some "new") none 5).1.wallet_address = "0xaa")
    ∧ ((createUser [] 1 "0xbb" none none 7).1 = ⟨1, "0xbb", none, none, 7, 7⟩
      ∧ (createUser [] 1 "0xbb" none none 7).2.1 = [⟨1, "0xbb", none, none, 7, 7⟩]) :=
  ⟨(createUser_upsert_coalesce [⟨1, "0xaa", some "old", some "e@x", 0, 0⟩] 2 "0xaa"
      (some "new") none 5).1 ⟨1, "0xaa", some "old", some "e@x", 0, 0⟩ rfl,
    (createUser_upsert_coalesce [] 1 "0xbb" none none 7).2 rfl⟩

/-- Every digit emitted by the fixed-width base-36 expansion is below 36. -/
theorem fracDigitsLE_lt (k : Nat) : ∀ n d, d ∈ fracDigitsLE k n → d < 36 := by
  induction k with
  | zero => intro n d hd; simp [fracDigitsLE] at hd
  | succ k ih =>
      intro n d hd
      simp only [fracDigitsLE, List.mem_cons] at hd
      rcases hd with hd | hd
      · subst hd
        exact Nat.mod_lt _ (by norm_num)
      · exact ih _ _ hd

/-- The trimmed fractional digits stay below 36. -/
theorem jsFrac36Digits_lt (num k : Nat) : ∀ d ∈ jsFrac36Digits num k, d < 36 := by
  intro d hd
  simp only [jsFrac36Digits, List.mem_reverse] at hd
  exact fracDigitsLE_lt k _ d ((List.dropWhile_sublist _).subset hd)

/-- Base-36 digit characters are alphanumeric. -/
theorem base36DigitChar_alphanum {d : Nat} (h : d < 36) :
    (base36DigitChar d).isAlphanum = true := by
  interval_cases d <;> decide

/-- Claim C9, counterexample: a nonce of a single character — for the random
draw 0.5 (= 1 / 2 ^ 1), `toString(36)` prints `0.i` and `substr(2, 15)` yields
`i`, so the claim that every nonce has at least 15 characters is false. -/
theorem generateNonce_short_counterexample :
    generateNonce 1 1 = "i" ∧ ¬(15 ≤ (generateNonce 1 1).toList.length) := by
  decide

/-- Claim C9, amended: every nonce consists of at most 15 base-36 alphanumeric
characters; it can be shorter than 15 — even empty — because `toString(36)`
prints only the trimmed expansion of the random value. -/
theorem generateNonce_at_most_15_alphanumeric (num k : Nat) :
    (generateNonce num k).toList.length ≤ 15
    ∧ ∀ c ∈ (generateNonce num k).toList, c.isAlphanum = true := by
  have hl : (generateNonce num k).toList = ((jsToString36Chars num k).drop 2).take 15 := rfl
  constructor
  · rw [hl]
    exact List.length_take_le 15 _
  · intro c hc
    rw [hl] at hc
    have hc' := List.mem_of_mem_take hc
    by_cases h0 : num == 0
    · simp [jsToString36Chars, h0] at hc'
    · simp only [jsToString36Chars, h0, if_false, Bool.false_eq_true, List.drop_succ_cons,
        List.drop_zero] at hc'
      rcases List.mem_map.mp hc' with ⟨d, hd, hdc⟩
      subst hdc
      exact base36DigitChar_alphanum (jsFrac36Digits_lt num k d hd)

/-- Witness for C9's amended theorem at the draw 0.5: length bound and
alphanumeric character. -/
theorem generateNonce_at_most_15_alphanumeric_witness :
    (generateNonce 1 1).toList.length ≤ 15 ∧ Char.isAlphanum 'i' = true :=
  ⟨(generateNonce_at_most_15_alphanumeric 1 1).1,
    (generateNonce_at_most_15_alphanumeric 1 1).2 'i' (by decide)⟩

/-- Claim C10: the freshness check of connect is one-sided — any embedded
timestamp at least `now` minus 5 minutes passes, arbitrarily far future ones
included; a message with no `Timestamp:` match is treated as timestamp 0, so
once the clock exceeds 5 minutes past the epoch such a message is rejected as
expired (given a matching signature, which the code checks first). -/
theorem freshness_one_sided :
    (∀ now ts : Int, now - ts ≤ fiveMinutesMs → messageExpiredCheck now ts = false)
    ∧ (∀ m : String, findTimestamp m.toList = none → extractTimestampFromMessage m = 0)
    ∧ (∀ (recover : String → String → Option String) (secret : String)
        (req : ConnectRequest) (now : Int) (sessionId : String)
        (dbSessionFail cacheSetFail : Bool) (st : ServerState) (recovered : String),
        recover req.message req.signature = some recovered →
        toLowerCase recovered = toLowerCase req.walletAddress →
        findTimestamp req.message.toList = none →
        fiveMinutesMs < now →
        (connect recover secret req now sessionId dbSessionFail cacheSetFail st).1
          = .messageExpired) := by
  refine ⟨?_, ?_, ?_⟩
  · intro now ts h
    simp only [messageExpiredCheck, decide_eq_false_iff_not, not_lt]
    exact h
  · intro m h
    have h' : findTimestamp m.data = none := h
    simp [extractTimestampFromMessage, h']
  · intro recover secret req now sessionId dbSessionFail cacheSetFail st recovered
      hrec haddr hnone hnow
    have hnone' : findTimestamp req.message.data = none := hnone
    have hts : extractTimestampFromMessage req.message = 0 := by
      simp [extractTimestampFromMessage, hnone']
    have hexp : messageExpiredCheck now (extractTimestampFromMessage req.message) = true := by
      simp only [hts, messageExpiredCheck, decide_eq_true_eq]
      omega
    simp [connect, hrec, haddr, hexp]

/-- Witness for C10: a far-future timestamp passes the check; a message with
no timestamp line extracts 0 and is rejected once the clock passes 5 minutes. -/
theorem freshness_one_sided_witness :
    messageExpiredCheck 0 99999999 = false
    ∧ extractTimestampFromMessage "hello" = 0
    ∧ (connect (fun _ _ => some "0xab") "secret"
        ⟨"0xAB", "sig", "no timestamp here", none, none⟩ 301000 "s1" false false
        ⟨[], 1, [], Cache.empty⟩).1 = .messageExpired :=
  ⟨freshness_one_sided.1 0 99999999 (by decide),
    freshness_one_sided.2.1 "hello" rfl,
    freshness_one_sided.2.2 (fun _ _ => some "0xab") "secret"
      ⟨"0xAB", "sig", "no timestamp here", none, none⟩ 301000 "s1" false false
      ⟨[], 1, [], Cache.empty⟩ "0xab" rfl (by decide) (by decide) (by decide)⟩

/-- Claim C5: a session whose recorded absolute expiry has passed is treated
as absent regardless of which store answers — the durable `getSession` query
filters on expiry (first conjunct, for any table), and a session created by
connect carries a cache eviction deadline equal to its recorded expiry, so at
any instant past that expiry the cache no longer answers and the spec's
cache-first lookup returns absent (second conjunct). -/
theorem expired_session_lookup_absent
    (recover : String → String → Option String) (secret : String)
    (req : ConnectRequest) (now : Int) (sessionId : String) (cacheSetFail : Bool)
    (st : ServerState) (recovered : String) (t : Int)
    (hrec : recover req.message req.signature = some recovered)
    (haddr : toLowerCase recovered = toLowerCase req.walletAddress)
    (hfresh : messageExpiredCheck now (extractTimestampFromMessage req.message) = false)
    (hnosess : ∀ r ∈ st.sessions, r.session_id ≠ sessionId)
    (hnocache : st.cache ("session:" ++ sessionId) = none)
    (ht : now + refreshTokenLifetimeMs ≤ t) :
    (∀ (sl : List SessionRow) (ul : List User) (sd : String) (tq : Int),
        (∀ r ∈ sl, r.session_id = sd → r.expires_at ≤ tq) →
        getSession sl ul sd tq = none)
    ∧ lookupSession
        ((connect recover secret req now sessionId false cacheSetFail st).2).sessions
        ((connect recover secret req now sessionId false cacheSetFail st).2).users
        ((connect recover secret req now sessionId false cacheSetFail st).2).cache
        sessionId t = none := by
  have hget : ∀ (sl : List SessionRow) (ul : List User) (sd : String) (tq : Int),
      (∀ r ∈ sl, r.session_id = sd → r.expires_at ≤ tq) → getSession sl ul sd tq = none := by
    intro sl ul sd tq hmono
    have hfind : sl.find? (fun r => r.session_id == sd && decide (tq < r.expires_at)) = none := by
      rw [List.find?_eq_none]
      intro r hr
      by_cases hs : r.session_id = sd
      · have hle := hmono r hr hs
        simp [hs]
        omega
      · simp [hs]
    simp [getSession, hfind]
  refine ⟨hget, ?_⟩
  have hdur : getSession
      (createSessionRow st.sessions sessionId
        (createUser st.users st.nextUserId req.walletAddress req.username req.email now).1.id
        (createUser st.users st.nextUserId req.walletAddress req.username req.email now).1.wallet_address
        (now + refreshTokenLifetimeMs))
      (createUser st.users st.nextUserId req.walletAddress req.username req.email now).2.1
      sessionId t = none := by
    apply hget
    intro r hr hs
    simp only [createSessionRow, List.mem_append, List.mem_singleton] at hr
    rcases hr with hmem | hmem
    · exact absurd hs (hnosess r hmem)
    · subst hmem
      exact ht
  simp only [connect, hrec, haddr, hfresh]
  cases cacheSetFail with
  | true =>
      have hcache : getCachedUserSession st.cache sessionId t = none := by
        simp [getCachedUserSession, redisGet, hnocache]
      simp [lookupSession, hcache, hdur]
  | false =>
      have hc : (sessionTtlSeconds * 1000 : Int) = refreshTokenLifetimeMs := by
        norm_num [sessionTtlSeconds, refreshTokenLifetimeMs]
      have hnotlt : ¬(t < now + sessionTtlSeconds * 1000) := by
        rw [hc]
        omega
      have hcache : getCachedUserSession
          (cacheUserSession st.cache sessionId
            ⟨(createUser st.users st.nextUserId req.walletAddress req.username req.email now).1.id,
             (createUser st.users st.nextUserId req.walletAddress req.username req.email now).1.wallet_address,
             (createUser st.users st.nextUserId req.walletAddress req.username req.email now).1.username⟩
            now sessionTtlSeconds) sessionId t = none := by
        simp [getCachedUserSession, cacheUserSession, redisSet, redisGet, hnotlt]
      simp [lookupSession, hcache, hdur]

/-- Witness for C5: the durable filter hides an expired row, and a session
created by connect at time 1000 is absent from the lookup at its expiry. -/
theorem expired_session_lookup_absent_witness :
    getSession [⟨"x", 1, "0xab", 3⟩] [] "x" 5 = none
    ∧ lookupSession
        ((connect (fun _ _ => some "0xab") "secret"
          ⟨"0xAB", "sig", "Timestamp: 1000", none, none⟩ 1000 "s1" false false
          ⟨[], 1, [], Cache.empty⟩).2).sessions
        ((connect (fun _ _ => some "0xab") "secret"
          ⟨"0xAB", "sig", "Timestamp: 1000", none, none⟩ 1000 "s1" false false
          ⟨[], 1, [], Cache.empty⟩).2).users
        ((connect (fun _ _ => some "0xab") "secret"
          ⟨"0xAB", "sig", "Timestamp: 1000", none, none⟩ 1000 "s1" false false
          ⟨[], 1, [], Cache.empty⟩).2).cache
        "s1" 604801000 = none :=
  ⟨(expired_session_lookup_absent (fun _ _ => some "0xab") "secret"
      ⟨"0xAB", "sig", "Timestamp: 1000", none, none⟩ 1000 "s1" false
      ⟨[], 1, [], Cache.empty⟩ "0xab" 604801000 rfl (by decide) (by decide)
      (by simp) rfl (by decide)).1 [⟨"x", 1, "0xab", 3⟩] [] "x" 5 (by decide),
    (expired_session_lookup_absent (fun _ _ => some "0xab") "secret"
      ⟨"0xAB", "sig", "Timestamp: 1000", none, none⟩ 1000 "s1" false
      ⟨[], 1, [], Cache.empty⟩ "0xab" 604801000 rfl (by decide) (by decide)
      (by simp) rfl (by decide)).2⟩

end PsyFi
